import Mathlib

/-!
Verification of the tensor-staging and measurement utilities of the PARAM
collective-communication benchmark (train/comms/pt/comms_utils.py).

The Python module is shallowly embedded: pure helpers become Lean functions,
Python float arithmetic is idealised as rational arithmetic, Python integer
floor division is Int.fdiv, raised exceptions and gracefulExit become Except
results, and torch tensors are modelled by their element counts and contents.
-/

namespace CommsUtils

/-! ## paramToCommName (comms_utils.py lines 408-443)

Python lowercases the name, drops every non-alphabetic character, and looks
the result up in a fixed alias dictionary; on a miss the ORIGINAL name is
returned unchanged.  When a supported-comms list is supplied and the result
is not in it, the process exits via gracefulExit. -/

/-- The lowered, alphabetic-only key used for the alias lookup.  Python
str.lower is applied per character; as in the source names, only ASCII
case folding is relevant. -/
def commNameKey (name : String) : String :=
  String.mk ((name.data.map Char.toLower).filter (fun c => c.isAlpha))

/-- Alias normalisation of a collective name, without validation
(the `supported_comms is None` path of paramToCommName). -/
def paramToCommName (name : String) : String :=
  let k := commNameKey name
  if k = "alltoall" then "all_to_all"
  else if k = "alltoallv" then "all_to_allv"
  else if k = "alltoallbase" then "all_to_allv"
  else if k = "allreduce" then "all_reduce"
  else if k = "allgather" then "all_gather"
  else if k = "allgatherbase" then "all_gather_base"
  else if k = "reducescatter" then "reduce_scatter"
  else if k = "recvanysource" then "recv"
  else name

/-- Error raised by prepComm paths that call gracefulExit. -/
inductive PrepError where
  | unsupportedComm (name : String) (supported : List String)
deriving Repr, DecidableEq

/-- paramToCommName with a supported-comms list: on an unsupported result the
Python code terminates the process through gracefulExit. -/
def paramToCommNameChecked (name : String) (supported : List String) :
    Except PrepError String :=
  let newName := paramToCommName name
  if newName ∈ supported then Except.ok newName
  else Except.error (PrepError.unsupportedComm name supported)

/-! ## getAlgBW (comms_utils.py lines 136-154)

Float arithmetic is idealised over the rationals.  The guards of the Python
code are kept exactly: no division is performed when numIters = 0, and no
division by the average time when that average is zero. -/

def getAlgBW (elapsedTimeNS : ℚ) (dataSize : ℤ) (numIters : ℤ) : ℚ × ℚ :=
  let avgIterNS : ℚ := if numIters ≠ 0 then elapsedTimeNS / (numIters : ℚ) else 0
  let algBW : ℚ := if avgIterNS ≠ 0 then (dataSize : ℚ) / avgIterNS else 0
  (avgIterNS, algBW)

/-! ## getSizes (comms_utils.py lines 157-183)

The while loop appends curSize while curSize <= endSize, updates curSize by
factor or by byte step, increments numIters, and breaks after the append once
numIters exceeds 100.  The loop counter is embedded as the countdown
r = 101 - numIters, so the recursion is structural: the break condition
numIters + 1 > 100 is exactly r = 1, i.e. countdown successor 0. -/

def getSizesGo (endSize stepFactor stepBytes : ℤ) : ℤ → Nat → List ℤ
  | _, 0 => []
  | curSize, r + 1 =>
    if curSize ≤ endSize then
      let nextSize := if stepBytes = 0 then curSize * stepFactor else curSize + stepBytes
      if r = 0 then [curSize]
      else curSize :: getSizesGo endSize stepFactor stepBytes nextSize r
    else []

def getSizes (beginSize endSize stepFactor stepBytes : ℤ) : List ℤ :=
  getSizesGo endSize stepFactor stepBytes beginSize 101

/-! ## fixBeginSize (comms_utils.py lines 186-222)

The Python function mutates commsParams.beginSize in place and returns None;
the embedding returns the updated record.  The two true divisions of the
guards are rational.  The second guard of the first branch reads the
beginSize already updated by the first guard, as in the source. -/

structure CommsParamsSizes where
  collective : String
  beginSize : ℤ
  element_size : ℤ
  bitwidth : ℤ
  quant_a2a_embedding_dim : ℤ
deriving Repr, DecidableEq

def fixBeginSize (p : CommsParamsSizes) (world_size : ℤ) : CommsParamsSizes :=
  if p.collective ∈ ["all_to_all", "all_to_allv", "all_gather",
      "all_gather_base", "gather", "reduce_scatter_base"] then
    let p1 :=
      if ((p.beginSize : ℚ) / (p.element_size : ℚ)) < (world_size : ℚ) then
        { p with beginSize := world_size * p.element_size }
      else p
    if p1.bitwidth < 32 ∧
        ((p1.beginSize : ℚ) / (p1.element_size : ℚ) / (world_size : ℚ))
          < (p1.quant_a2a_embedding_dim : ℚ) then
      { p1 with beginSize :=
          p1.quant_a2a_embedding_dim * world_size * p1.element_size }
    else p1
  else if p.collective = "all_reduce" ∨ p.collective = "reduce" then
    if p.beginSize < p.element_size then { p with beginSize := p.element_size }
    else p
  else p

/-! ## checkQuantArgs (comms_utils.py lines 349-387)

The three NotImplementedError raises, in source order.  The divisibility
complaint for all_to_all begin sizes is only a logged warning, not an error,
so it does not appear in the result.  The dtype is modelled by the torch
dtypes named in the module; blockingFlag is a bool compared against 1 in
Python, which for bools is equality with True. -/

inductive TorchDtype where
  | float32 | int32 | long | half | bfloat16 | double | bool | uint8
deriving Repr, DecidableEq

inductive QuantErr where
  | unsupportedCollective (collective : String)
  | asyncAllToAll
  | unsupportedDtype (dtype : TorchDtype)
deriving Repr, DecidableEq

def checkQuantArgs (collective : String) (dtype : TorchDtype) (beginSize : ℤ)
    (quantA2aEmbeddingDim : ℤ) (blockingFlag : Bool) : Except QuantErr Unit :=
  if collective ∉ ["all_to_all", "all_to_allv", "reduce", "all_reduce"] then
    Except.error (QuantErr.unsupportedCollective collective)
  else if collective ∈ ["all_to_all", "all_to_allv"] ∧ blockingFlag ≠ true then
    Except.error QuantErr.asyncAllToAll
  else if dtype ≠ TorchDtype.float32 then
    Except.error (QuantErr.unsupportedDtype dtype)
  else Except.ok ()

/-! ## backendFunctions.getBusBW (comms_utils.py lines 694-736)

busBW starts at algBW and mulFactor at 1.0; each guarded branch only updates
mulFactor when world_size is nonzero.  The final else branch logs an error
and still returns the initial busBW; the Bool in the result records whether
that error branch was taken. -/

def getBusBW (collective : String) (algBW : ℚ) (worldSize : ℤ) : ℚ × Bool :=
  if collective = "all_reduce" then
    let mulFactor : ℚ :=
      if worldSize ≠ 0 then 2 * ((worldSize : ℚ) - 1) / (worldSize : ℚ) else 1
    (algBW * mulFactor, false)
  else if collective ∈ ["all_to_all", "all_to_allv", "gather", "all_gather",
      "reduce_scatter", "reduce_scatter_base", "scatter", "all_gather_base"] then
    let mulFactor : ℚ :=
      if worldSize ≠ 0 then ((worldSize : ℚ) - 1) / (worldSize : ℚ) else 1
    (algBW * mulFactor, false)
  else if collective ∈ ["reduce", "broadcast", "incast", "multicast"] then
    (algBW, false)
  else
    (algBW, true)

/-- The collective names given a bus-bandwidth formula by getBusBW. -/
def busBWSupported : List String :=
  ["all_reduce", "all_to_all", "all_to_allv", "gather", "all_gather",
   "reduce_scatter", "reduce_scatter_base", "scatter", "all_gather_base",
   "reduce", "broadcast", "incast", "multicast"]

/-! ## paramCommsBench.dcheck (comms_utils.py lines 1128-1186)

Tensor element values are modelled as integers; the dtype only matters
through the torch.bool comparison, kept as a flag on the tensor.  A tensor is
either a single value list or, for list-of-tensor collectives, a list of
value lists.  The raised ValueError carries the offending rank (for the list
case), index, actual value and expected value. -/

inductive TensorData where
  | single (vals : List ℤ)
  | tlist (tensors : List (List ℤ))
deriving Repr, DecidableEq

structure PTensor where
  dtypeIsBool : Bool
  data : TensorData
deriving Repr, DecidableEq

structure ValErr where
  rankIdx : Option Nat
  elemIdx : Nat
  actual : ℤ
  expected : ℤ
deriving Repr, DecidableEq

/-- Environment of a dcheck call: the fields of commsParams, collectiveArgs
and the backend that the Python method reads. -/
structure DcheckEnv where
  collective : String
  srcOrDst : ℤ
  dstRanks : List ℤ
  globalRank : ℤ
  worldSize : ℤ
  initVal : ℤ
deriving Repr, DecidableEq

/-- First index at which a value list differs from the expected value, with
the value found there; this is where the Python loop raises. -/
def firstMismatch : List ℤ → ℤ → Option (Nat × ℤ)
  | [], _ => none
  | v :: rest, expRes =>
    if v ≠ expRes then some (0, v)
    else (firstMismatch rest expRes).map (fun p => (p.1 + 1, p.2))

/-- First (rank, index, value) mismatch over a list of tensors. -/
def firstListMismatch : List (List ℤ) → ℤ → Nat → Option (Nat × Nat × ℤ)
  | [], _, _ => none
  | t :: rest, expRes, rank =>
    match firstMismatch t expRes with
    | some (i, v) => some (rank, i, v)
    | none => firstListMismatch rest expRes (rank + 1)

def dcheck (env : DcheckEnv) (tensor : PTensor) : Except ValErr Unit :=
  let expRes : ℤ :=
    if env.collective ∈ ["all_reduce", "reduce_scatter", "reduce_scatter_base"]
        ∨ (env.globalRank = env.srcOrDst ∧ env.collective = "reduce") then
      if tensor.dtypeIsBool then env.initVal else env.worldSize * env.initVal
    else env.initVal
  if (env.collective ∈ ["incast", "reduce", "gather"]
        ∧ env.globalRank ≠ env.srcOrDst)
      ∨ (env.collective ∈ ["multicast", "pt2pt"]
        ∧ env.globalRank ∉ env.dstRanks) then
    Except.ok ()
  else
    match tensor.data with
    | TensorData.tlist tensors =>
      match firstListMismatch tensors expRes 0 with
      | some (rank, i, v) => Except.error ⟨some rank, i, v, expRes⟩
      | none => Except.ok ()
    | TensorData.single vals =>
      match firstMismatch vals expRes with
      | some (i, v) => Except.error ⟨none, i, v, expRes⟩
      | none => Except.ok ()

/-! ## paramCommsBench.prepComm and its staging strategies
(comms_utils.py lines 1222-1579)

Buffers are modelled by shape and identity: every torch tensor allocation and
every fresh Python list carries a unique id drawn from an allocation state,
so that the Python object identity `opTensor is ipTensor` is Lean equality of
`Buf` values.  The allocation state also logs every alloc_ones / alloc_random
backend call (prepComm makes no alloc_empty call) with its element count.
Value contents, dtype, device and the random scale factor numElementsOut^2 do
not affect buffer shape or identity and are not modelled.  Python integer
floor division `//` is Int.fdiv. -/

inductive AllocKind where
  | ones
  | randomVals
deriving Repr, DecidableEq

structure AllocEvent where
  kind : AllocKind
  numel : ℤ
deriving Repr, DecidableEq

structure AllocState where
  nextId : Nat
  events : List AllocEvent
deriving Repr, DecidableEq

def AllocState.init : AllocState := ⟨0, []⟩

/-- A staged buffer: a torch tensor or a Python list of buffers, each with
its object identity. -/
inductive Buf where
  | tensor (id : Nat) (numel : ℤ) (kind : AllocKind)
  | pylist (id : Nat) (elems : List Buf)
deriving Repr

/-- One backend alloc_ones / alloc_random call. -/
def allocTensor (kind : AllocKind) (numel : ℤ) (s : AllocState) :
    Buf × AllocState :=
  (Buf.tensor s.nextId numel kind,
   ⟨s.nextId + 1, s.events ++ [⟨kind, numel⟩]⟩)

/-- A `for _ in range(count)` loop of identical tensor allocations. -/
def allocTensors (kind : AllocKind) (numel : ℤ) : Nat → AllocState →
    List Buf × AllocState
  | 0, s => ([], s)
  | count + 1, s =>
    let (b, s) := allocTensor kind numel s
    let (rest, s) := allocTensors kind numel count s
    (b :: rest, s)

/-- Creation of a fresh Python list object (not a backend allocation, so no
event is logged; only the fresh identity matters). -/
def newPyList (elems : List Buf) (s : AllocState) : Buf × AllocState :=
  (Buf.pylist s.nextId elems, ⟨s.nextId + 1, s.events⟩)

/-- The fields of a commsArgs record that prepComm reads. -/
structure CommsArgs where
  comms : Option String
  inMsgSize : ℤ
  outMsgSize : ℤ
  inSplit : Option (List ℤ)
  outSplit : Option (List ℤ)
deriving Repr, DecidableEq

/-- The fields of commsParams, collectiveArgs and the backend that prepComm
and the staging strategies read: the collective name, the dcheck flag, the
world size, the incast source ranks and the keys of the backend's
collectiveFunc dictionary. -/
structure PrepEnv where
  collective : String
  dcheck : Nat
  worldSize : Nat
  srcRanks : List ℤ
  supportedComms : List String
deriving Repr, DecidableEq

/-- Result of prepComm: the two buffers, and the split metadata that
_prep_all_to_allv writes to collectiveArgs (none means left untouched). -/
structure PrepResult where
  ipTensor : Buf
  opTensor : Buf
  ipTensorSplit : Option (List ℤ)
  opTensorSplit : Option (List ℤ)
deriving Repr

/-- _prep_all_to_allv (lines 1222-1254): one flat output tensor plus split
metadata defaulting to numElements // world_size per rank. -/
def prepAllToAllv (ipTensor : Buf) (curComm : CommsArgs) (env : PrepEnv)
    (numElementsIn numElementsOut : ℤ) (world_size : Nat) (allocate : Bool)
    (s : AllocState) : PrepResult × AllocState :=
  let (opEmpty, s) := newPyList [] s
  let (opTensor, s) :=
    if allocate then allocTensor AllocKind.randomVals numElementsOut s
    else (opEmpty, s)
  let opSplit :=
    match curComm.outSplit with
    | some sp => sp
    | none => List.replicate world_size (Int.fdiv numElementsOut world_size)
  let ipSplit :=
    match curComm.inSplit with
    | some sp => sp
    | none => List.replicate world_size (Int.fdiv numElementsIn world_size)
  (⟨ipTensor, opTensor, some ipSplit, some opSplit⟩, s)

/-- _prep_all_to_all (lines 1256-1300): two lists of world_size tensors of
numElements // world_size elements each; ones for input under dcheck. -/
def prepAllToAll (ipTensor : Buf) (curComm : CommsArgs) (env : PrepEnv)
    (numElementsIn numElementsOut : ℤ) (world_size : Nat) (allocate : Bool)
    (s : AllocState) : PrepResult × AllocState :=
  if allocate then
    let ipKind := if env.dcheck = 1 then AllocKind.ones else AllocKind.randomVals
    let (ipElems, s) :=
      allocTensors ipKind (Int.fdiv numElementsIn world_size) world_size s
    let (opElems, s) :=
      allocTensors AllocKind.randomVals (Int.fdiv numElementsOut world_size)
        world_size s
    let (ipList, s) := newPyList ipElems s
    let (opList, s) := newPyList opElems s
    (⟨ipList, opList, none, none⟩, s)
  else
    let (ipList, s) := newPyList [] s
    let (opList, s) := newPyList [] s
    (⟨ipList, opList, none, none⟩, s)

/-- _prep_all_gather, also dispatched for gather (lines 1302-1336): the input
is reallocated with numElementsIn // world_size elements and the output is a
list of world_size tensors of numElementsIn // world_size elements. -/
def prepAllGather (ipTensor : Buf) (curComm : CommsArgs) (env : PrepEnv)
    (numElementsIn numElementsOut : ℤ) (world_size : Nat) (allocate : Bool)
    (s : AllocState) : PrepResult × AllocState :=
  if allocate then
    let ipKind := if env.dcheck = 1 then AllocKind.ones else AllocKind.randomVals
    let (ip, s) := allocTensor ipKind (Int.fdiv numElementsIn world_size) s
    let (opElems, s) :=
      allocTensors AllocKind.randomVals (Int.fdiv numElementsIn world_size)
        world_size s
    let (opList, s) := newPyList opElems s
    (⟨ip, opList, none, none⟩, s)
  else
    let (opList, s) := newPyList [] s
    (⟨ipTensor, opList, none, none⟩, s)

/-- _prep_all_gather_base (lines 1338-1372): input of numElementsIn //
world_size elements, flat output of numElementsIn elements. -/
def prepAllGatherBase (ipTensor : Buf) (curComm : CommsArgs) (env : PrepEnv)
    (numElementsIn numElementsOut : ℤ) (world_size : Nat) (allocate : Bool)
    (s : AllocState) : PrepResult × AllocState :=
  if allocate then
    let ipKind := if env.dcheck = 1 then AllocKind.ones else AllocKind.randomVals
    let (ip, s) := allocTensor ipKind (Int.fdiv numElementsIn world_size) s
    let (op, s) := allocTensor AllocKind.randomVals numElementsIn s
    (⟨ip, op, none, none⟩, s)
  else
    let (opList, s) := newPyList [] s
    (⟨ipTensor, opList, none, none⟩, s)

/-- _prep_incast (lines 1374-1397): output is a list of one tensor of
numElementsOut elements per source rank; the input passes through. -/
def prepIncast (ipTensor : Buf) (curComm : CommsArgs) (env : PrepEnv)
    (numElementsIn numElementsOut : ℤ) (world_size : Nat) (allocate : Bool)
    (s : AllocState) : PrepResult × AllocState :=
  if allocate then
    let (opElems, s) :=
      allocTensors AllocKind.randomVals numElementsOut env.srcRanks.length s
    let (opList, s) := newPyList opElems s
    (⟨ipTensor, opList, none, none⟩, s)
  else
    let (opList, s) := newPyList [] s
    (⟨ipTensor, opList, none, none⟩, s)

/-- _prep_reduce_scatter, also dispatched for scatter (lines 1399-1439):
input is a list of world_size tensors of numElementsOut // world_size
elements, output a single tensor of numElementsOut // world_size elements. -/
def prepReduceScatter (ipTensor : Buf) (curComm : CommsArgs) (env : PrepEnv)
    (numElementsIn numElementsOut : ℤ) (world_size : Nat) (allocate : Bool)
    (s : AllocState) : PrepResult × AllocState :=
  if allocate then
    let ipKind := if env.dcheck = 1 then AllocKind.ones else AllocKind.randomVals
    let (ipElems, s) :=
      allocTensors ipKind (Int.fdiv numElementsOut world_size) world_size s
    let (ipList, s) := newPyList ipElems s
    let (op, s) :=
      allocTensor AllocKind.randomVals (Int.fdiv numElementsOut world_size) s
    (⟨ipList, op, none, none⟩, s)
  else
    let (ipList, s) := newPyList [] s
    let (opList, s) := newPyList [] s
    (⟨ipList, opList, none, none⟩, s)

/-- _prep_reduce_scatter_base (lines 1441-1475): flat input of numElementsOut
elements, output of numElementsOut // world_size elements. -/
def prepReduceScatterBase (ipTensor : Buf) (curComm : CommsArgs) (env : PrepEnv)
    (numElementsIn numElementsOut : ℤ) (world_size : Nat) (allocate : Bool)
    (s : AllocState) : PrepResult × AllocState :=
  if allocate then
    let ipKind := if env.dcheck = 1 then AllocKind.ones else AllocKind.randomVals
    let (ip, s) := allocTensor ipKind numElementsOut s
    let (op, s) :=
      allocTensor AllocKind.randomVals (Int.fdiv numElementsOut world_size) s
    (⟨ip, op, none, none⟩, s)
  else
    let (ipList, s) := newPyList [] s
    let (opList, s) := newPyList [] s
    (⟨ipList, opList, none, none⟩, s)

/-- _prep_pt2pt (lines 1477-1499): single flat output of numElementsOut
elements; the input passes through. -/
def prepPt2pt (ipTensor : Buf) (curComm : CommsArgs) (env : PrepEnv)
    (numElementsIn numElementsOut : ℤ) (world_size : Nat) (allocate : Bool)
    (s : AllocState) : PrepResult × AllocState :=
  if allocate then
    let (op, s) := allocTensor AllocKind.randomVals numElementsOut s
    (⟨ipTensor, op, none, none⟩, s)
  else
    let (opList, s) := newPyList [] s
    (⟨ipTensor, opList, none, none⟩, s)

/-- The keys of prepComm's dispatchDict (lines 1548-1559). -/
def dispatchKeys : List String :=
  ["all_to_allv", "all_to_all", "all_gather", "gather", "all_gather_base",
   "incast", "reduce_scatter", "reduce_scatter_base", "scatter", "pt2pt"]

/-- The keys of backendFunctions.collectiveFunc (lines 676-692), the
supported-comms set that prepComm validates against. -/
def defaultSupportedComms : List String :=
  ["all_to_all", "all_to_allv", "all_reduce", "broadcast", "gather",
   "all_gather", "all_gather_base", "reduce", "reduce_scatter",
   "reduce_scatter_base", "scatter", "barrier", "incast", "multicast", "noop"]

/-- paramCommsBench.prepComm (lines 1501-1579).  The name is normalised and
validated first; wait and barrier return a pair of fresh empty lists; the
input buffer is then allocated (ones under dcheck, else random) and the
staging strategy found in dispatchDict runs; with no dispatch entry the
output aliases the input buffer. -/
def prepComm (curComm : CommsArgs) (env : PrepEnv) (allocate : Bool)
    (s : AllocState) : Except PrepError PrepResult × AllocState :=
  match paramToCommNameChecked (curComm.comms.getD env.collective)
      env.supportedComms with
  | Except.error e => (Except.error e, s)
  | Except.ok commOp =>
    if commOp = "wait" ∨ commOp = "barrier" then
      let (l1, s) := newPyList [] s
      let (l2, s) := newPyList [] s
      (Except.ok ⟨l1, l2, none, none⟩, s)
    else
      let numElementsIn := curComm.inMsgSize
      let numElementsOut := curComm.outMsgSize
      let world_size := env.worldSize
      let (ipTensor, s) :=
        if allocate then
          if env.dcheck = 1 then allocTensor AllocKind.ones numElementsIn s
          else allocTensor AllocKind.randomVals numElementsIn s
        else newPyList [] s
      let (res, s) :=
        if commOp = "all_to_allv" then
          prepAllToAllv ipTensor curComm env numElementsIn numElementsOut
            world_size allocate s
        else if commOp = "all_to_all" then
          prepAllToAll ipTensor curComm env numElementsIn numElementsOut
            world_size allocate s
        else if commOp = "all_gather" then
          prepAllGather ipTensor curComm env numElementsIn numElementsOut
            world_size allocate s
        else if commOp = "gather" then
          prepAllGather ipTensor curComm env numElementsIn numElementsOut
            world_size allocate s
        else if commOp = "all_gather_base" then
          prepAllGatherBase ipTensor curComm env numElementsIn numElementsOut
            world_size allocate s
        else if commOp = "incast" then
          prepIncast ipTensor curComm env numElementsIn numElementsOut
            world_size allocate s
        else if commOp = "reduce_scatter" then
          prepReduceScatter ipTensor curComm env numElementsIn numElementsOut
            world_size allocate s
        else if commOp = "reduce_scatter_base" then
          prepReduceScatterBase ipTensor curComm env numElementsIn
            numElementsOut world_size allocate s
        else if commOp = "scatter" then
          prepReduceScatter ipTensor curComm env numElementsIn numElementsOut
            world_size allocate s
        else if commOp = "pt2pt" then
          prepPt2pt ipTensor curComm env numElementsIn numElementsOut
            world_size allocate s
        else
          (⟨ipTensor, ipTensor, none, none⟩, s)
      (Except.ok res, s)

/-! ## Helper lemmas -/

theorem getSizesGo_length_le (endSize stepFactor stepBytes : ℤ) :
    ∀ (r : Nat) (curSize : ℤ),
      (getSizesGo endSize stepFactor stepBytes curSize r).length ≤ r := by
  intro r
  induction r with
  | zero => intro c; simp [getSizesGo]
  | succ r ih =>
    intro c
    simp only [getSizesGo]
    split
    · split
      · simp
      · simpa using ih _
    · simp

theorem firstMismatch_eq_none_iff (vals : List ℤ) (expRes : ℤ) :
    firstMismatch vals expRes = none ↔ ∀ v ∈ vals, v = expRes := by
  induction vals with
  | nil => simp [firstMismatch]
  | cons a rest ih =>
    by_cases ha : a = expRes
    · simp [firstMismatch, ha, ih]
    · simp [firstMismatch, ha]

theorem firstMismatch_eq_some (vals : List ℤ) (expRes : ℤ) (i : Nat) (v : ℤ)
    (h : firstMismatch vals expRes = some (i, v)) :
    vals.get? i = some v ∧ v ≠ expRes := by
  induction vals generalizing i with
  | nil => simp [firstMismatch] at h
  | cons a rest ih =>
    by_cases ha : a = expRes
    · rw [firstMismatch, if_neg (not_not_intro ha)] at h
      match hm : firstMismatch rest expRes with
      | none => rw [hm] at h; simp at h
      | some (j, w) =>
        rw [hm] at h
        simp only [Option.map_some', Option.some.injEq, Prod.mk.injEq] at h
        obtain ⟨hi, hv⟩ := h
        subst hi; subst hv
        simpa [List.get?] using ih _ hm
    · rw [firstMismatch, if_pos ha] at h
      simp only [Option.some.injEq, Prod.mk.injEq] at h
      obtain ⟨hi, hv⟩ := h
      subst hi; subst hv
      simpa [List.get?] using ha

/-! ## Claim theorems -/

/-- C3: getAlgBW with numIters = 0 returns average iteration time 0 and
algorithmic bandwidth 0 without any division; with numIters nonzero the
average is elapsed time over iterations, and when that average is nonzero
the bandwidth is dataSize divided by it. -/
theorem getAlgBW_spec (elapsedTimeNS : ℚ) (dataSize numIters : ℤ) :
    getAlgBW elapsedTimeNS dataSize 0 = (0, 0) ∧
    (numIters ≠ 0 →
      (getAlgBW elapsedTimeNS dataSize numIters).1 = elapsedTimeNS / (numIters : ℚ) ∧
      ((getAlgBW elapsedTimeNS dataSize numIters).1 ≠ 0 →
        (getAlgBW elapsedTimeNS dataSize numIters).2 =
          (dataSize : ℚ) / (getAlgBW elapsedTimeNS dataSize numIters).1)) := by
  refine ⟨by simp [getAlgBW], fun hn => ⟨by simp [getAlgBW, hn], fun havg => ?_⟩⟩
  simp only [getAlgBW, hn] at havg ⊢
  simp only [ne_eq, not_false_eq_true, if_true] at havg ⊢
  rw [if_pos havg]

theorem getAlgBW_spec_witness :
    (3 : ℤ) ≠ 0 ∧ getAlgBW 6 12 0 = (0, 0) ∧ (getAlgBW 6 12 3).1 = 6 / 3 ∧
    (getAlgBW 6 12 3).2 = 12 / (getAlgBW 6 12 3).1 :=
  ⟨by decide, (getAlgBW_spec 6 12 3).1, ((getAlgBW_spec 6 12 3).2 (by decide)).1,
   ((getAlgBW_spec 6 12 3).2 (by decide)).2 (by norm_num [getAlgBW])⟩

/-- C7: alias normalisation is idempotent: applying paramToCommName twice
(with no supported-comms validation) gives the same result as applying it
once, for every input string. -/
theorem paramToCommName_idempotent (name : String) :
    paramToCommName (paramToCommName name) = paramToCommName name := by
  by_cases h1 : commNameKey name = "alltoall"
  · have e : paramToCommName name = "all_to_all" := by
      simp [paramToCommName, h1]
    rw [e]; decide
  · by_cases h2 : commNameKey name = "alltoallv"
    · have e : paramToCommName name = "all_to_allv" := by
        simp [paramToCommName, h1, h2]
      rw [e]; decide
    · by_cases h3 : commNameKey name = "alltoallbase"
      · have e : paramToCommName name = "all_to_allv" := by
          simp [paramToCommName, h1, h2, h3]
        rw [e]; decide
      · by_cases h4 : commNameKey name = "allreduce"
        · have e : paramToCommName name = "all_reduce" := by
            simp [paramToCommName, h1, h2, h3, h4]
          rw [e]; decide
        · by_cases h5 : commNameKey name = "allgather"
          · have e : paramToCommName name = "all_gather" := by
              simp [paramToCommName, h1, h2, h3, h4, h5]
            rw [e]; decide
          · by_cases h6 : commNameKey name = "allgatherbase"
            · have e : paramToCommName name = "all_gather_base" := by
                simp [paramToCommName, h1, h2, h3, h4, h5, h6]
              rw [e]; decide
            · by_cases h7 : commNameKey name = "reducescatter"
              · have e : paramToCommName name = "reduce_scatter" := by
                  simp [paramToCommName, h1, h2, h3, h4, h5, h6, h7]
                rw [e]; decide
              · by_cases h8 : commNameKey name = "recvanysource"
                · have e : paramToCommName name = "recv" := by
                    simp [paramToCommName, h1, h2, h3, h4, h5, h6, h7, h8]
                  rw [e]; decide
                · have e : paramToCommName name = name := by
                    simp [paramToCommName, h1, h2, h3, h4, h5, h6, h7, h8]
                  rw [e, e]

/-- C8: checkQuantArgs rejects a quantization request exactly when the
collective is outside the four supported ones, or the collective is
all_to_all/all_to_allv in non-blocking mode, or the dtype is not float32;
the function performs no staging or allocation. -/
theorem checkQuantArgs_spec (collective : String) (dtype : TorchDtype)
    (beginSize quantA2aEmbeddingDim : ℤ) (blockingFlag : Bool) :
    (∃ err, checkQuantArgs collective dtype beginSize quantA2aEmbeddingDim
        blockingFlag = Except.error err) ↔
      (collective ∉ ["all_to_all", "all_to_allv", "reduce", "all_reduce"]
        ∨ (collective ∈ ["all_to_all", "all_to_allv"] ∧ blockingFlag ≠ true)
        ∨ dtype ≠ TorchDtype.float32) := by
  unfold checkQuantArgs
  by_cases h1 : collective ∉ ["all_to_all", "all_to_allv", "reduce", "all_reduce"]
  · simp [h1]
  · rw [if_neg (by simpa using h1)]
    by_cases h2 : collective ∈ ["all_to_all", "all_to_allv"] ∧ blockingFlag ≠ true
    · simp [h1, h2]
    · rw [if_neg h2]
      by_cases h3 : dtype ≠ TorchDtype.float32
      · simp [h1, h2, h3]
      · rw [if_neg h3]
        constructor
        · rintro ⟨err, herr⟩
          exact absurd herr (by simp)
        · intro hr
          exfalso
          rcases hr with hr | hmem | hr
          · exact h1 hr
          · exact h2 hmem
          · exact h3 hr

/-- C9: getSizes is total and the size list never exceeds 101 entries: the
loop counter break fires after 101 appended sizes even when the current size
has not passed endSize, as the non-growing configuration
stepFactor = 1, stepBytes = 0 with beginSize below endSize shows. -/
theorem getSizes_length_le (beginSize endSize stepFactor stepBytes : ℤ) :
    (getSizes beginSize endSize stepFactor stepBytes).length ≤ 101 ∧
    (getSizes 1 10 1 0).length = 101 :=
  ⟨getSizesGo_length_le endSize stepFactor stepBytes 101 beginSize, rfl⟩

/-- C10: for every collective name to which getBusBW assigns a bandwidth
formula, a world size of zero leaves the multiplier guard untriggered, so the
returned bus bandwidth is the algorithmic bandwidth unchanged and the
unsupported-collective error branch is not taken. -/
theorem getBusBW_worldSizeZero (collective : String) (algBW : ℚ)
    (h : collective ∈ busBWSupported) :
    getBusBW collective algBW 0 = (algBW, false) := by
  fin_cases h <;> simp [getBusBW]

theorem getBusBW_worldSizeZero_witness :
    "all_reduce" ∈ busBWSupported ∧ getBusBW "all_reduce" 10 0 = (10, false) :=
  ⟨by decide, getBusBW_worldSizeZero "all_reduce" 10 (by decide)⟩

/-- C4: with a reduction-style collective (all_reduce, reduce_scatter,
reduce_scatter_base, or reduce at the root rank), dcheck accepts a tensor
exactly when every element equals worldSize * initVal, or initVal itself for
boolean dtype; otherwise it raises a ValueError carrying the offending index
and the expected and actual content. -/
theorem dcheck_reduction_spec (env : DcheckEnv) (dtypeIsBool : Bool)
    (vals : List ℤ)
    (hcoll : env.collective ∈ ["all_reduce", "reduce_scatter", "reduce_scatter_base"]
      ∨ (env.collective = "reduce" ∧ env.globalRank = env.srcOrDst)) :
    (dcheck env ⟨dtypeIsBool, TensorData.single vals⟩ = Except.ok () ↔
      ∀ v ∈ vals,
        v = (if dtypeIsBool then env.initVal else env.worldSize * env.initVal)) ∧
    (∀ err, dcheck env ⟨dtypeIsBool, TensorData.single vals⟩ = Except.error err →
      err.expected =
        (if dtypeIsBool then env.initVal else env.worldSize * env.initVal) ∧
      vals.get? err.elemIdx = some err.actual ∧
      err.actual ≠ err.expected) := by
  have hexp : env.collective ∈ ["all_reduce", "reduce_scatter", "reduce_scatter_base"]
      ∨ (env.globalRank = env.srcOrDst ∧ env.collective = "reduce") := by
    rcases hcoll with h | ⟨h1, h2⟩
    · exact Or.inl h
    · exact Or.inr ⟨h2, h1⟩
  have hskip : ¬ ((env.collective ∈ ["incast", "reduce", "gather"]
        ∧ env.globalRank ≠ env.srcOrDst)
      ∨ (env.collective ∈ ["multicast", "pt2pt"]
        ∧ env.globalRank ∉ env.dstRanks)) := by
    rcases hcoll with h | ⟨h1, h2⟩
    · simp only [List.mem_cons, List.mem_singleton, List.not_mem_nil,
        or_false] at h
      rcases h with h | h | h <;> simp [h]
    · simp [h1, h2]
  simp only [dcheck, if_pos hexp, if_neg hskip]
  constructor
  · cases hm : firstMismatch vals
        (if dtypeIsBool then env.initVal else env.worldSize * env.initVal) with
    | none =>
      simp only [hm]
      simpa using (firstMismatch_eq_none_iff vals _).mp hm
    | some p =>
      obtain ⟨i, v⟩ := p
      obtain ⟨hget, hne⟩ := firstMismatch_eq_some vals _ i v hm
      simp only [hm]
      constructor
      · intro hcontra; exact absurd hcontra (by simp)
      · intro hall
        exact absurd (hall v (List.get?_mem hget)) hne
  · intro err herr
    cases hm : firstMismatch vals
        (if dtypeIsBool then env.initVal else env.worldSize * env.initVal) with
    | none => rw [hm] at herr; exact absurd herr (by simp)
    | some p =>
      obtain ⟨i, v⟩ := p
      rw [hm] at herr
      obtain ⟨hget, hne⟩ := firstMismatch_eq_some vals _ i v hm
      have herr' : err = ⟨none, i, v,
          if dtypeIsBool then env.initVal else env.worldSize * env.initVal⟩ := by
        cases herr; rfl
      subst herr'
      exact ⟨rfl, hget, hne⟩

theorem dcheck_reduction_spec_witness :
    ("all_reduce" ∈ ["all_reduce", "reduce_scatter", "reduce_scatter_base"]
      ∨ ("all_reduce" = "reduce" ∧ (1 : ℤ) = 0)) ∧
    dcheck ⟨"all_reduce", 0, [], 1, 4, 1⟩ ⟨false, TensorData.single [4, 4]⟩ =
      Except.ok () :=
  ⟨Or.inl (by decide),
   (dcheck_reduction_spec ⟨"all_reduce", 0, [], 1, 4, 1⟩ false [4, 4]
     (Or.inl (by decide))).1.mpr (by decide)⟩

/-- C5: for incast and gather on a rank other than the configured root, and
for multicast on a rank outside the destination-rank list, dcheck returns
without inspecting the tensor and never raises, whatever the contents. -/
theorem dcheck_skip_nonroot (env : DcheckEnv) (tensor : PTensor)
    (h : (env.collective ∈ ["incast", "gather"] ∧ env.globalRank ≠ env.srcOrDst)
      ∨ (env.collective = "multicast" ∧ env.globalRank ∉ env.dstRanks)) :
    dcheck env tensor = Except.ok () := by
  have hskip : (env.collective ∈ ["incast", "reduce", "gather"]
        ∧ env.globalRank ≠ env.srcOrDst)
      ∨ (env.collective ∈ ["multicast", "pt2pt"]
        ∧ env.globalRank ∉ env.dstRanks) := by
    rcases h with ⟨hm, hne⟩ | ⟨hm, hnin⟩
    · refine Or.inl ⟨?_, hne⟩
      simp only [List.mem_cons, List.mem_singleton, List.not_mem_nil,
        or_false] at hm
      rcases hm with hm | hm <;> simp [hm]
    · exact Or.inr ⟨by simp [hm], hnin⟩
  simp only [dcheck, if_pos hskip]

theorem allocTensors_snd (kind : AllocKind) (numel : ℤ) :
    ∀ (count : Nat) (s : AllocState),
      (allocTensors kind numel count s).2 =
        ⟨s.nextId + count, s.events ++ List.replicate count ⟨kind, numel⟩⟩
  | 0, s => by simp [allocTensors]
  | c + 1, s => by
    have ih := allocTensors_snd kind numel c ⟨s.nextId + 1, s.events ++ [⟨kind, numel⟩]⟩
    simp only [allocTensors, allocTensor]
    rcases h : allocTensors kind numel c ⟨s.nextId + 1, s.events ++ [⟨kind, numel⟩]⟩
      with ⟨rest, s2⟩
    rw [h] at ih
    simp only [h, ih, AllocState.mk.injEq, List.replicate_succ, List.append_assoc,
      List.singleton_append]
    refine ⟨by omega, by simp⟩

/-- C1: when the normalised operation name is not among the backend's
supported collectives, prepComm exits with the explicit unsupported-comm
error during name normalisation, leaving the allocation state untouched:
no alloc_ones or alloc_random call is made. -/
theorem prepComm_unsupported_exits (curComm : CommsArgs) (env : PrepEnv)
    (allocate : Bool) (s : AllocState)
    (h : paramToCommName (curComm.comms.getD env.collective) ∉ env.supportedComms) :
    prepComm curComm env allocate s =
      (Except.error (PrepError.unsupportedComm (curComm.comms.getD env.collective)
          env.supportedComms), s) := by
  simp only [prepComm, paramToCommNameChecked, if_neg h]

theorem prepComm_unsupported_exits_witness :
    paramToCommName "bogus" ∉ defaultSupportedComms ∧
    prepComm ⟨some "bogus", 8, 8, none, none⟩
        ⟨"all_reduce", 0, 4, [], defaultSupportedComms⟩ true AllocState.init =
      (Except.error (PrepError.unsupportedComm "bogus" defaultSupportedComms),
        AllocState.init) :=
  ⟨by decide, prepComm_unsupported_exits ⟨some "bogus", 8, 8, none, none⟩
      ⟨"all_reduce", 0, 4, [], defaultSupportedComms⟩ true AllocState.init (by decide)⟩

/-- C2 counterexample: with all_gather, world size 4 and an input element
count of 5 that is not divisible by the world size, prepComm reports no
configuration error: it succeeds after six buffer allocations, floor-dividing
the element count (5 // 4 = 1). -/
theorem prepComm_nondivisible_counterexample :
    ¬ ((4 : ℤ) ∣ 5) ∧
    prepComm ⟨some "all_gather", 5, 5, none, none⟩
        ⟨"all_reduce", 0, 4, [], defaultSupportedComms⟩ true AllocState.init =
      (Except.ok ⟨Buf.tensor 1 1 AllocKind.randomVals,
        Buf.pylist 6
          [Buf.tensor 2 1 AllocKind.randomVals, Buf.tensor 3 1 AllocKind.randomVals,
           Buf.tensor 4 1 AllocKind.randomVals, Buf.tensor 5 1 AllocKind.randomVals],
        none, none⟩,
       ⟨7, [⟨AllocKind.randomVals, 5⟩, ⟨AllocKind.randomVals, 1⟩,
            ⟨AllocKind.randomVals, 1⟩, ⟨AllocKind.randomVals, 1⟩,
            ⟨AllocKind.randomVals, 1⟩, ⟨AllocKind.randomVals, 1⟩]⟩) :=
  ⟨by decide, rfl⟩

/-- C2 amended: neither fixBeginSize nor any staging strategy checks
divisibility by the world size.  For each of the eight split/flat collectives
(all_to_all, all_to_allv, all_gather, all_gather_base, reduce_scatter,
reduce_scatter_base, gather, scatter) and element counts not divisible by the
world size, prepComm succeeds and silently allocates buffers -- and for
all_to_allv, default split metadata -- computed by floor division
numElements // world_size; and fixBeginSize only ever adjusts beginSize,
reporting no error and leaving the non-divisible five-element, world-size-4
configuration of the counterexample in place. -/
theorem prepComm_splitFlat_floorDiv (numElementsIn numElementsOut : ℤ)
    (ws : Nat) (s : AllocState) (hws : 0 < ws)
    (hin : ¬ ((ws : ℤ) ∣ numElementsIn)) (hout : ¬ ((ws : ℤ) ∣ numElementsOut)) :
    (∃ res s',
      prepComm ⟨some "all_to_all", numElementsIn, numElementsOut, none, none⟩
          ⟨"all_reduce", 0, ws, [], defaultSupportedComms⟩ true s =
        (Except.ok res, s') ∧
      s'.events = s.events ++ ⟨AllocKind.randomVals, numElementsIn⟩ ::
        (List.replicate ws ⟨AllocKind.randomVals, Int.fdiv numElementsIn ws⟩ ++
         List.replicate ws ⟨AllocKind.randomVals, Int.fdiv numElementsOut ws⟩)) ∧
    (∃ res s',
      prepComm ⟨some "all_to_allv", numElementsIn, numElementsOut, none, none⟩
          ⟨"all_reduce", 0, ws, [], defaultSupportedComms⟩ true s =
        (Except.ok res, s') ∧
      res.ipTensorSplit = some (List.replicate ws (Int.fdiv numElementsIn ws)) ∧
      res.opTensorSplit = some (List.replicate ws (Int.fdiv numElementsOut ws)) ∧
      s'.events = s.events ++ [⟨AllocKind.randomVals, numElementsIn⟩,
        ⟨AllocKind.randomVals, numElementsOut⟩]) ∧
    (∃ res s',
      prepComm ⟨some "all_gather", numElementsIn, numElementsOut, none, none⟩
          ⟨"all_reduce", 0, ws, [], defaultSupportedComms⟩ true s =
        (Except.ok res, s') ∧
      s'.events = (s.events ++ [⟨AllocKind.randomVals, numElementsIn⟩]) ++
        List.replicate (ws + 1) ⟨AllocKind.randomVals, Int.fdiv numElementsIn ws⟩) ∧
    (∃ res s',
      prepComm ⟨some "all_gather_base", numElementsIn, numElementsOut, none, none⟩
          ⟨"all_reduce", 0, ws, [], defaultSupportedComms⟩ true s =
        (Except.ok res, s') ∧
      s'.events = s.events ++ [⟨AllocKind.randomVals, numElementsIn⟩,
        ⟨AllocKind.randomVals, Int.fdiv numElementsIn ws⟩,
        ⟨AllocKind.randomVals, numElementsIn⟩]) ∧
    (∃ res s',
      prepComm ⟨some "reduce_scatter", numElementsIn, numElementsOut, none, none⟩
          ⟨"all_reduce", 0, ws, [], defaultSupportedComms⟩ true s =
        (Except.ok res, s') ∧
      s'.events = (s.events ++ [⟨AllocKind.randomVals, numElementsIn⟩]) ++
        List.replicate (ws + 1) ⟨AllocKind.randomVals, Int.fdiv numElementsOut ws⟩) ∧
    (∃ res s',
      prepComm ⟨some "reduce_scatter_base", numElementsIn, numElementsOut, none, none⟩
          ⟨"all_reduce", 0, ws, [], defaultSupportedComms⟩ true s =
        (Except.ok res, s') ∧
      s'.events = s.events ++ [⟨AllocKind.randomVals, numElementsIn⟩,
        ⟨AllocKind.randomVals, numElementsOut⟩,
        ⟨AllocKind.randomVals, Int.fdiv numElementsOut ws⟩]) ∧
    (∃ res s',
      prepComm ⟨some "gather", numElementsIn, numElementsOut, none, none⟩
          ⟨"all_reduce", 0, ws, [], defaultSupportedComms⟩ true s =
        (Except.ok res, s') ∧
      s'.events = (s.events ++ [⟨AllocKind.randomVals, numElementsIn⟩]) ++
        List.replicate (ws + 1) ⟨AllocKind.randomVals, Int.fdiv numElementsIn ws⟩) ∧
    (∃ res s',
      prepComm ⟨some "scatter", numElementsIn, numElementsOut, none, none⟩
          ⟨"all_reduce", 0, ws, [], defaultSupportedComms⟩ true s =
        (Except.ok res, s') ∧
      s'.events = (s.events ++ [⟨AllocKind.randomVals, numElementsIn⟩]) ++
        List.replicate (ws + 1) ⟨AllocKind.randomVals, Int.fdiv numElementsOut ws⟩) ∧
    (∀ (p : CommsParamsSizes) (w : ℤ), ∃ b, fixBeginSize p w =
      ⟨p.collective, b, p.element_size, p.bitwidth, p.quant_a2a_embedding_dim⟩) ∧
    fixBeginSize ⟨"all_gather", 20, 4, 32, 8⟩ 4 = ⟨"all_gather", 20, 4, 32, 8⟩ := by
  refine ⟨?_, ?_, ?_, ?_, ?_, ?_, ?_, ?_, ?_, ?_⟩
  · have hname : paramToCommNameChecked "all_to_all" defaultSupportedComms =
        Except.ok "all_to_all" := rfl
    simp only [prepComm, Option.getD_some, hname]
    simp only [allocTensor, prepAllToAll]
    simp [newPyList]
    refine ⟨_, _, ⟨rfl, rfl⟩, ?_⟩
    simp only [allocTensors_snd]
    simp [List.append_assoc]
  · have hname : paramToCommNameChecked "all_to_allv" defaultSupportedComms =
        Except.ok "all_to_allv" := rfl
    simp only [prepComm, Option.getD_some, hname]
    simp only [allocTensor, prepAllToAllv]
    simp [newPyList]
    exact ⟨_, _, ⟨rfl, rfl⟩, rfl, rfl, rfl⟩
  · have hname : paramToCommNameChecked "all_gather" defaultSupportedComms =
        Except.ok "all_gather" := rfl
    simp only [prepComm, Option.getD_some, hname]
    simp only [allocTensor, prepAllGather]
    simp [newPyList]
    refine ⟨_, _, ⟨rfl, rfl⟩, ?_⟩
    rw [allocTensors_snd]
    simp [List.replicate_succ]
  · have hname : paramToCommNameChecked "all_gather_base" defaultSupportedComms =
        Except.ok "all_gather_base" := rfl
    simp only [prepComm, Option.getD_some, hname]
    simp only [allocTensor, prepAllGatherBase]
    simp [newPyList]
    exact ⟨_, _, ⟨rfl, rfl⟩, rfl⟩
  · have hname : paramToCommNameChecked "reduce_scatter" defaultSupportedComms =
        Except.ok "reduce_scatter" := rfl
    simp only [prepComm, Option.getD_some, hname]
    simp only [allocTensor, prepReduceScatter]
    simp [newPyList]
    refine ⟨_, _, ⟨rfl, rfl⟩, ?_⟩
    simp only [allocTensors_snd]
    simp [List.replicate_succ', List.append_assoc]
  · have hname : paramToCommNameChecked "reduce_scatter_base" defaultSupportedComms =
        Except.ok "reduce_scatter_base" := rfl
    simp only [prepComm, Option.getD_some, hname]
    simp only [allocTensor, prepReduceScatterBase]
    simp [newPyList]
    exact ⟨_, _, ⟨rfl, rfl⟩, rfl⟩
  · have hname : paramToCommNameChecked "gather" defaultSupportedComms =
        Except.ok "gather" := rfl
    simp only [prepComm, Option.getD_some, hname]
    simp only [allocTensor, prepAllGather]
    simp [newPyList]
    refine ⟨_, _, ⟨rfl, rfl⟩, ?_⟩
    rw [allocTensors_snd]
    simp [List.replicate_succ]
  · have hname : paramToCommNameChecked "scatter" defaultSupportedComms =
        Except.ok "scatter" := rfl
    simp only [prepComm, Option.getD_some, hname]
    simp only [allocTensor, prepReduceScatter]
    simp [newPyList]
    refine ⟨_, _, ⟨rfl, rfl⟩, ?_⟩
    simp only [allocTensors_snd]
    simp [List.replicate_succ', List.append_assoc]
  · intro p w
    simp only [fixBeginSize]
    split_ifs <;> exact ⟨_, rfl⟩
  · norm_num [fixBeginSize]

theorem prepComm_splitFlat_floorDiv_witness :
    0 < 4 ∧ ¬ ((4 : ℤ) ∣ 5) ∧
    ((∃ res s',
      prepComm ⟨some "all_to_all", 5, 5, none, none⟩
          ⟨"all_reduce", 0, 4, [], defaultSupportedComms⟩ true AllocState.init =
        (Except.ok res, s') ∧
      s'.events = AllocState.init.events ++ ⟨AllocKind.randomVals, 5⟩ ::
        (List.replicate 4 ⟨AllocKind.randomVals, Int.fdiv 5 4⟩ ++
         List.replicate 4 ⟨AllocKind.randomVals, Int.fdiv 5 4⟩)) ∧
    (∃ res s',
      prepComm ⟨some "all_to_allv", 5, 5, none, none⟩
          ⟨"all_reduce", 0, 4, [], defaultSupportedComms⟩ true AllocState.init =
        (Except.ok res, s') ∧
      res.ipTensorSplit = some (List.replicate 4 (Int.fdiv 5 4)) ∧
      res.opTensorSplit = some (List.replicate 4 (Int.fdiv 5 4)) ∧
      s'.events = AllocState.init.events ++ [⟨AllocKind.randomVals, 5⟩,
        ⟨AllocKind.randomVals, 5⟩]) ∧
    (∃ res s',
      prepComm ⟨some "all_gather", 5, 5, none, none⟩
          ⟨"all_reduce", 0, 4, [], defaultSupportedComms⟩ true AllocState.init =
        (Except.ok res, s') ∧
      s'.events = (AllocState.init.events ++ [⟨AllocKind.randomVals, 5⟩]) ++
        List.replicate (4 + 1) ⟨AllocKind.randomVals, Int.fdiv 5 4⟩) ∧
    (∃ res s',
      prepComm ⟨some "all_gather_base", 5, 5, none, none⟩
          ⟨"all_reduce", 0, 4, [], defaultSupportedComms⟩ true AllocState.init =
        (Except.ok res, s') ∧
      s'.events = AllocState.init.events ++ [⟨AllocKind.randomVals, 5⟩,
        ⟨AllocKind.randomVals, Int.fdiv 5 4⟩,
        ⟨AllocKind.randomVals, 5⟩]) ∧
    (∃ res s',
      prepComm ⟨some "reduce_scatter", 5, 5, none, none⟩
          ⟨"all_reduce", 0, 4, [], defaultSupportedComms⟩ true AllocState.init =
        (Except.ok res, s') ∧
      s'.events = (AllocState.init.events ++ [⟨AllocKind.randomVals, 5⟩]) ++
        List.replicate (4 + 1) ⟨AllocKind.randomVals, Int.fdiv 5 4⟩) ∧
    (∃ res s',
      prepComm ⟨some "reduce_scatter_base", 5, 5, none, none⟩
          ⟨"all_reduce", 0, 4, [], defaultSupportedComms⟩ true AllocState.init =
        (Except.ok res, s') ∧
      s'.events = AllocState.init.events ++ [⟨AllocKind.randomVals, 5⟩,
        ⟨AllocKind.randomVals, 5⟩,
        ⟨AllocKind.randomVals, Int.fdiv 5 4⟩]) ∧
    (∃ res s',
      prepComm ⟨some "gather", 5, 5, none, none⟩
          ⟨"all_reduce", 0, 4, [], defaultSupportedComms⟩ true AllocState.init =
        (Except.ok res, s') ∧
      s'.events = (AllocState.init.events ++ [⟨AllocKind.randomVals, 5⟩]) ++
        List.replicate (4 + 1) ⟨AllocKind.randomVals, Int.fdiv 5 4⟩) ∧
    (∃ res s',
      prepComm ⟨some "scatter", 5, 5, none, none⟩
          ⟨"all_reduce", 0, 4, [], defaultSupportedComms⟩ true AllocState.init =
        (Except.ok res, s') ∧
      s'.events = (AllocState.init.events ++ [⟨AllocKind.randomVals, 5⟩]) ++
        List.replicate (4 + 1) ⟨AllocKind.randomVals, Int.fdiv 5 4⟩) ∧
    (∀ (p : CommsParamsSizes) (w : ℤ), ∃ b, fixBeginSize p w =
      ⟨p.collective, b, p.element_size, p.bitwidth, p.quant_a2a_embedding_dim⟩) ∧
    fixBeginSize ⟨"all_gather", 20, 4, 32, 8⟩ 4 = ⟨"all_gather", 20, 4, 32, 8⟩) :=
  ⟨by decide, by decide,
   prepComm_splitFlat_floorDiv 5 5 4 AllocState.init (by decide) (by decide)
     (by decide)⟩

/-- C6 counterexample: barrier is a supported operation with no entry in the
staging dispatch table, yet prepComm returns two distinct fresh empty list
objects for it, not one shared buffer. -/
theorem prepComm_barrier_not_inplace :
    "barrier" ∈ defaultSupportedComms ∧ "barrier" ∉ dispatchKeys ∧
    prepComm ⟨some "barrier", 8, 8, none, none⟩
        ⟨"all_reduce", 0, 4, [], defaultSupportedComms⟩ true AllocState.init =
      (Except.ok ⟨Buf.pylist 0 [], Buf.pylist 1 [], none, none⟩, ⟨2, []⟩) ∧
    Buf.pylist 0 [] ≠ Buf.pylist 1 [] :=
  ⟨by decide, by decide, rfl, by simp⟩

/-- C6 amended: for every supported operation name with no entry in the
staging dispatch table other than wait and barrier (such as all_reduce,
reduce, broadcast), prepComm succeeds with an output buffer that is the very
same object as the input buffer, allocating at most the single input
buffer. -/
theorem prepComm_inplace (curComm : CommsArgs) (env : PrepEnv) (allocate : Bool)
    (s : AllocState)
    (hsup : paramToCommName (curComm.comms.getD env.collective) ∈ env.supportedComms)
    (hnwb : paramToCommName (curComm.comms.getD env.collective) ∉ ["wait", "barrier"])
    (hnd : paramToCommName (curComm.comms.getD env.collective) ∉ dispatchKeys) :
    ∃ res s', prepComm curComm env allocate s = (Except.ok res, s') ∧
      res.opTensor = res.ipTensor ∧
      s'.events.length ≤ s.events.length + 1 := by
  simp only [List.mem_cons, List.mem_singleton, List.not_mem_nil, or_false] at hnwb
  push_neg at hnwb
  simp only [dispatchKeys, List.mem_cons, List.mem_singleton, List.not_mem_nil,
    or_false] at hnd
  push_neg at hnd
  obtain ⟨d1, d2, d3, d4, d5, d6, d7, d8, d9, d10⟩ := hnd
  simp only [prepComm, paramToCommNameChecked, if_pos hsup]
  rw [if_neg (by simp [hnwb.1, hnwb.2])]
  rw [if_neg d1, if_neg d2, if_neg d3, if_neg d4, if_neg d5, if_neg d6, if_neg d7,
    if_neg d8, if_neg d9, if_neg d10]
  cases allocate with
  | false =>
    exact ⟨_, _, rfl, rfl, by simp [newPyList]⟩
  | true =>
    by_cases hd : env.dcheck = 1
    · rw [if_pos hd]
      exact ⟨_, _, rfl, rfl, by simp [allocTensor]⟩
    · rw [if_neg hd]
      exact ⟨_, _, rfl, rfl, by simp [allocTensor]⟩

theorem prepComm_inplace_witness :
    paramToCommName "all_reduce" ∈ defaultSupportedComms ∧
    paramToCommName "all_reduce" ∉ ["wait", "barrier"] ∧
    paramToCommName "all_reduce" ∉ dispatchKeys ∧
    ∃ res s', prepComm ⟨some "all_reduce", 8, 8, none, none⟩
        ⟨"all_reduce", 0, 4, [], defaultSupportedComms⟩ true AllocState.init =
      (Except.ok res, s') ∧
      res.opTensor = res.ipTensor ∧
      s'.events.length ≤ AllocState.init.events.length + 1 :=
  ⟨by decide, by decide, by decide,
   prepComm_inplace ⟨some "all_reduce", 8, 8, none, none⟩
     ⟨"all_reduce", 0, 4, [], defaultSupportedComms⟩ true AllocState.init
     (by decide) (by decide) (by decide)⟩

theorem dcheck_skip_nonroot_witness :
    (("gather" ∈ ["incast", "gather"] ∧ (2 : ℤ) ≠ 0)
      ∨ ("gather" = "multicast" ∧ (2 : ℤ) ∉ ([] : List ℤ))) ∧
    dcheck ⟨"gather", 0, [], 2, 4, 1⟩ ⟨false, TensorData.single [99]⟩ =
      Except.ok () :=
  ⟨Or.inl ⟨by decide, by decide⟩,
   dcheck_skip_nonroot ⟨"gather", 0, [], 2, 4, 1⟩ ⟨false, TensorData.single [99]⟩
     (Or.inl ⟨by decide, by decide⟩)⟩

end CommsUtils
